import Mathlib

/-!
Verification development for the PDF form processing script
(`nodes/FillPdf/fillpdf-processor.py`): a request/response processor that
inspects fillable form fields of a PDF document and fills them with
caller-supplied values.

The script is shallowly embedded here.  JSON values (the script's inputs:
the request object, field mappings, and the raw field metadata returned by
the `fillpdf` engine) are modelled by the inductive type `Value`.  The two
external collaborators that the script does not implement itself — the
base64 codec (`base64.b64decode` / `b64encode`) and the `fillpdf` engine
(`get_form_fields` / `write_fillable_pdf`) — are modelled as components of
an environment record `Env`; the rest of the script is translated function
by function:

* `ErrorHandler.validate_input_data`  → `validate_input_data`
* `PdfProcessor.inspect_pdf`          → `inspect_pdf`
* `PdfProcessor.fill_pdf`             → `fill_pdf`
* `PdfProcessor._parse_field_info`    → `parse_field_info` (with
  `parse_field_info_core` for the body of its outer `try`)
* `PdfProcessor._validate_field_mappings` → `validate_field_mappings`
* `PdfProcessor._convert_field_mappings`  → `convert_field_mappings`
* `main`'s dispatch                   → `process_request`

Python exceptions are modelled with `Except` / `Option`; a raised
`PdfProcessingError` that `main` would catch and print is folded into the
`.err` constructor of the result types, carrying the same message and
error-type the printed JSON would carry.
-/

/-- Observable properties of a Python `float` value, as far as the script
inspects them: NaN-ness (`value != value`), zero-ness (truthiness),
infiniteness (`int()` overflow), truncation (`int()` result when finite),
and its `str()` rendering.  Real floating-point arithmetic is never
performed by the script, so this record is a faithful interface. -/
structure PyFloat where
  isNaN : Bool
  isZero : Bool
  isInf : Bool
  trunc : Int
  str : String
deriving Repr, DecidableEq

/-- A JSON-decodable Python value: exactly the shapes `json.loads` can
produce, which is what the script's request fields and the engine's raw
field metadata range over. -/
inductive Value where
  | vnull : Value
  | vbool (b : Bool) : Value
  | vint (n : Int) : Value
  | vfloat (f : PyFloat) : Value
  | vstr (s : String) : Value
  | vlist (xs : List Value) : Value
  | vdict (kvs : List (String × Value)) : Value

/-- Python `is None` test. -/
def Value.isNull : Value → Bool
  | .vnull => true
  | _ => false

/-- Python truthiness (`bool(v)` / `if v:`) of a JSON value. -/
def Value.isTruthy : Value → Bool
  | .vnull => false
  | .vbool b => b
  | .vint n => n != 0
  | .vfloat f => !f.isZero
  | .vstr s => s != ""
  | .vlist xs => !xs.isEmpty
  | .vdict kvs => !kvs.isEmpty

/-- Python `v == s` for a string literal `s`: only equal when `v` is the
same string (`True == "x"`, `1 == "1"` are false in Python). -/
def valueEqStr (v : Value) (s : String) : Bool :=
  match v with
  | .vstr t => t == s
  | _ => false

/-- Dictionary lookup, `d.get(k)` / `k in d`.  JSON objects are modelled as
association lists; real `dict`s have unique keys, which `lookup` respects
by taking the first binding. -/
def lookup (kvs : List (String × Value)) (k : String) : Option Value :=
  match kvs with
  | [] => none
  | (k2, v) :: rest => if k2 == k then some v else lookup rest k

mutual
/-- Python `repr()` of a JSON value (used for elements inside containers;
escaping of quotes inside strings is elided — no claim touches it). -/
def pyRepr : Value → String
  | .vnull => "None"
  | .vbool b => if b then "True" else "False"
  | .vint n => toString n
  | .vfloat f => f.str
  | .vstr s => "\x27" ++ s ++ "\x27"
  | .vlist xs => "[" ++ String.intercalate ", " (pyReprList xs) ++ "]"
  | .vdict kvs => "\x7b" ++ String.intercalate ", " (pyReprPairs kvs) ++ "\x7d"

/-- `repr()` of each element of a list. -/
def pyReprList : List Value → List String
  | [] => []
  | v :: vs => pyRepr v :: pyReprList vs

/-- `repr()` of each `key: value` pair of a dict. -/
def pyReprPairs : List (String × Value) → List String
  | [] => []
  | (k, v) :: vs => ("\x27" ++ k ++ "\x27: " ++ pyRepr v) :: pyReprPairs vs
end

/-- Python `str()` of a JSON value: same as `repr()` except for strings. -/
def pyStr : Value → String
  | .vstr s => s
  | v => pyRepr v

mutual
/-- `json.dumps` of a JSON value (string escaping elided; `json.dumps`
cannot fail on JSON-decodable input, so it is total). -/
def jsonDumps : Value → String
  | .vnull => "null"
  | .vbool b => if b then "true" else "false"
  | .vint n => toString n
  | .vfloat f => if f.isNaN then "NaN" else f.str
  | .vstr s => "\"" ++ s ++ "\""
  | .vlist xs => "[" ++ String.intercalate ", " (jsonDumpsList xs) ++ "]"
  | .vdict kvs => "\x7b" ++ String.intercalate ", " (jsonDumpsPairs kvs) ++ "\x7d"

/-- `json.dumps` of each element of a list. -/
def jsonDumpsList : List Value → List String
  | [] => []
  | v :: vs => jsonDumps v :: jsonDumpsList vs

/-- `json.dumps` of each `"key": value` pair of a dict. -/
def jsonDumpsPairs : List (String × Value) → List String
  | [] => []
  | (k, v) :: vs => ("\"" ++ k ++ "\": " ++ jsonDumps v) :: jsonDumpsPairs vs
end

/-- `s.lower()` (ASCII, which is all the matched keywords use). -/
def strLower (s : String) : String :=
  String.mk (s.data.map Char.toLower)

/-- `pat` is a prefix of `l` (used for `bytes.startswith` and substring
search). -/
def listStarts {α : Type} [BEq α] : List α → List α → Bool
  | [], _ => true
  | _ :: _, [] => false
  | p :: ps, b :: bs => p == b && listStarts ps bs

/-- `sub` occurs as a contiguous run inside `l` (Python `sub in l`). -/
def listHasSub {α : Type} [BEq α] (sub : List α) : List α → Bool
  | [] => sub.isEmpty
  | b :: bs => listStarts sub (b :: bs) || listHasSub sub bs

/-- Python `sub in s` on strings. -/
def strContainsSub (s sub : String) : Bool :=
  listHasSub sub.data s.data

/-- Code-point comparison of strings, as Python `sorted` uses. -/
def strLeChars : List Char → List Char → Bool
  | [], _ => true
  | _ :: _, [] => false
  | a :: xs, b :: ys =>
    if a.toNat < b.toNat then true
    else if b.toNat < a.toNat then false
    else strLeChars xs ys

/-- `a <= b` on strings by code points. -/
def strLe (a b : String) : Bool :=
  strLeChars a.data b.data

/-- Insert into a sorted list (ascending by `strLe`). -/
def insertSorted (x : String) : List String → List String
  | [] => [x]
  | y :: ys => if strLe x y then x :: y :: ys else y :: insertSorted x ys

/-- Python `sorted` on a list of strings (stable insertion sort; on the
duplicate-free inputs the script sorts, any correct sort agrees). -/
def pySorted : List String → List String
  | [] => []
  | x :: xs => insertSorted x (pySorted xs)

/-- Collapse adjacent duplicates (after sorting this yields the sorted
list of distinct elements). -/
def dedupSorted : List String → List String
  | [] => []
  | [x] => [x]
  | x :: y :: r => if x == y then dedupSorted (y :: r) else x :: dedupSorted (y :: r)

/-- Python `sorted(set(l))`. -/
def pySortedSet (l : List String) : List String :=
  dedupSorted (pySorted l)

/-- Parse a non-empty digit run. -/
def parseDigitsAux : List Char → Nat → Option Nat
  | [], acc => some acc
  | c :: cs, acc =>
    if c.isDigit then parseDigitsAux cs (acc * 10 + (c.toNat - 48)) else none

/-- Parse a non-empty decimal digit string. -/
def parseDigits : List Char → Option Nat
  | [] => none
  | cs => parseDigitsAux cs 0

/-- Python `int(s)` on a string (whitespace/underscore tolerance elided —
only reached for `maxLength` values, which no claim exercises). -/
def pyParseInt (s : String) : Option Int :=
  match s.data with
  | '-' :: rest => (parseDigits rest).map (fun n => -(n : Int))
  | '+' :: rest => (parseDigits rest).map (fun n => (n : Int))
  | cs => (parseDigits cs).map (fun n => (n : Int))

/-- How Python `int(v)` can go wrong: `caught` = raises `ValueError` or
`TypeError` (absorbed by the script's `except (ValueError, TypeError)`),
`uncaught` = raises something else (`OverflowError` on an infinite float),
which escapes to the enclosing `except Exception: pass`. -/
inductive IntCastErr where
  | caught : IntCastErr
  | uncaught : IntCastErr

/-- Python `int(v)` on a JSON value. -/
def pyIntOfValue : Value → Except IntCastErr Int
  | .vint n => .ok n
  | .vbool b => .ok (if b then 1 else 0)
  | .vfloat f =>
    if f.isNaN then .error .caught
    else if f.isInf then .error .uncaught
    else .ok f.trunc
  | .vstr s =>
    match pyParseInt s with
    | some n => .ok n
    | none => .error .caught
  | _ => .error .caught

/-- The three-kind error taxonomy of the script. -/
inductive ErrType where
  | config : ErrType
  | data : ErrType
  | runtime : ErrType
deriving Repr, DecidableEq

/-- A failure response: the `error` message and `errorType` the script
prints (the `details` payload is not modelled). -/
structure ErrResp where
  error : String
  errorType : ErrType
deriving Repr, DecidableEq

/-- The normalized per-field descriptor built by `_parse_field_info`.
Keys that the Python dict only sometimes carries are `Option`s. -/
structure FieldInfo where
  name : String
  type : String
  required : Bool
  defaultValue : Option String
  options : Option (List String)
  maxLength : Option Int
  parseError : Option String
deriving Repr, DecidableEq

/-- Result of `inspect_pdf` as printed by `main`: either the success
envelope (field list and `metadata.fieldCount`; `processingTime` is
wall-clock and not modelled) or a failure response. -/
inductive InspectResult where
  | ok (fields : List FieldInfo) (fieldCount : Nat) : InspectResult
  | err (e : ErrResp) : InspectResult
deriving Repr, DecidableEq

/-- Result of `fill_pdf` as printed by `main`: the success envelope
(base64 data, `metadata.fieldCount`, `metadata.filledFieldCount`) or a
failure response. -/
inductive FillResult where
  | ok (data : String) (fieldCount : Nat) (filledFieldCount : Nat) : FillResult
  | err (e : ErrResp) : FillResult
deriving Repr, DecidableEq

/-- The two external collaborators, as the script observes them:
`b64decode` returns the decoded bytes or fails (any exception), the
engine's `get_form_fields` returns the ordered field dict or fails with a
message (`str(e)`), `write_fillable` consumes the input bytes, the coerced
data dict and the `flatten` argument and returns the output bytes or fails
with a message, and `b64encode` renders bytes back to base64 text. -/
structure Env where
  b64decode : String → Option (List Nat)
  get_form_fields : List Nat → Except String (List (String × Value))
  write_fillable : List Nat → List (String × String) → Value → Except String (List Nat)
  b64encode : List Nat → String

/-- `base64.b64decode(v)` on a request value: any non-string JSON value
raises `TypeError`, which the callers catch as a decode failure. -/
def tryDecode (env : Env) : Value → Option (List Nat)
  | .vstr s => env.b64decode s
  | _ => none

/-- `ErrorHandler.validate_input_data`, translated clause for clause
(lines 102–167 of the script). -/
def validate_input_data (env : Env) (input_data : List (String × Value)) : Option ErrResp :=
  match lookup input_data "action" with
  | none => some ⟨"Missing required field: action", .config⟩
  | some act =>
    match lookup input_data "pdfData" with
    | none => some ⟨"Missing required field: pdfData", .config⟩
    | some pdfData =>
      if !(valueEqStr act "inspect" || valueEqStr act "fill") then
        some ⟨"Invalid action \x27" ++ pyStr act ++ "\x27. Must be one of: inspect, fill", .config⟩
      else if !pdfData.isTruthy then
        some ⟨"PDF data cannot be empty", .data⟩
      else if (tryDecode env pdfData).isNone then
        some ⟨"Invalid base64 encoded PDF data", .data⟩
      else if valueEqStr act "fill" then
        match lookup input_data "fieldMappings" with
        | none => some ⟨"Field mappings required for fill action", .config⟩
        | some (.vdict _) => none
        | some _ => some ⟨"Field mappings must be a dictionary", .config⟩
      else
        none

/-- The second half of `_parse_field_info`'s dict branch (lines 456–461):
read `required` as a truthiness cast when the key is present, and
`defaultValue` as a `str()` cast when present and non-null. -/
def readReqDefault (fi : FieldInfo) (kvs : List (String × Value)) : FieldInfo :=
  let fi2 :=
    match lookup kvs "required" with
    | none => fi
    | some r => { fi with required := r.isTruthy }
  match lookup kvs "defaultValue" with
  | none => fi2
  | some .vnull => fi2
  | some dv => { fi2 with defaultValue := some (pyStr dv) }

/-- Capture an `options` list (lines 440–441 / 444–445): set only when the
key is present and its value is a list; every element is `str()`-cast with
no null filtering (unlike the plain-sequence branch). -/
def readOptions (fi : FieldInfo) (kvs : List (String × Value)) : FieldInfo :=
  match lookup kvs "options" with
  | some (.vlist opts) => { fi with options := some (opts.map pyStr) }
  | _ => fi

/-- `_parse_field_info`'s structured-record branch (lines 430–465).  The
inner `try` can only raise via `int()` overflowing on an infinite float
`maxLength`; its `except Exception: pass` then keeps the partially
updated descriptor and skips the `required`/`defaultValue` reads. -/
def parseDict (field_name : String) (kvs : List (String × Value)) : FieldInfo :=
  let base : FieldInfo := ⟨field_name, "text", false, none, none, none, none⟩
  let ftype := strLower (pyStr ((lookup kvs "type").getD (.vstr "text")))
  if strContainsSub ftype "checkbox" || strContainsSub ftype "check" then
    readReqDefault { base with type := "checkbox" } kvs
  else if strContainsSub ftype "radio" then
    readReqDefault (readOptions { base with type := "radio" } kvs) kvs
  else if strContainsSub ftype "dropdown" || strContainsSub ftype "choice" then
    readReqDefault (readOptions { base with type := "dropdown" } kvs) kvs
  else
    match lookup kvs "maxLength" with
    | none => readReqDefault base kvs
    | some ml =>
      match pyIntOfValue ml with
      | .ok n => readReqDefault (if 0 < n then { base with maxLength := some n } else base) kvs
      | .error .caught => readReqDefault base kvs
      | .error .uncaught => base

/-- The body of `_parse_field_info`'s outer `try` (lines 417–481): fails
exactly when the field name is empty (`not field_name`; engine field names
are strings, so the `isinstance` disjunct cannot fire). -/
def parse_field_info_core (field_name : String) (field_data : Value) : Except String FieldInfo :=
  if field_name == "" then .error "Invalid field name"
  else
    let base : FieldInfo := ⟨field_name, "text", false, none, none, none, none⟩
    let fi :=
      match field_data with
      | .vdict kvs => parseDict field_name kvs
      | .vlist opts =>
        if 0 < opts.length then
          { base with type := "dropdown",
                      options := some ((opts.filter (fun v => !v.isNull)).map pyStr) }
        else base
      | _ => base
    if fi.name == "" then .error "Field name cannot be empty"
    else .ok fi

/-- `PdfProcessor._parse_field_info` (lines 406–491): the outer
`try/except` produces the minimal fallback descriptor when the core
fails, recording the failure text in `parseError`. -/
def parse_field_info (field_name : String) (field_data : Value) : FieldInfo :=
  match parse_field_info_core field_name field_data with
  | .ok fi => fi
  | .error e =>
    ⟨if field_name == "" then "unknown" else field_name,
     "text", false, none, none, none, some e⟩

/-- The `%PDF` magic header (`b"%PDF"` as byte values). -/
def pdfMagic : List Nat := [37, 80, 68, 70]

/-- `PdfProcessor.inspect_pdf` (lines 176–265), with the raised
`PdfProcessingError`s folded into `.err` (that is what `main` prints).
The per-field `try/except: continue` of lines 246–250 is omitted because
`parse_field_info` is total (every raise inside `_parse_field_info` is
caught by its own handler), so the loop appends one descriptor per
engine field. -/
def inspect_pdf (env : Env) (pdf_data : String) : InspectResult :=
  if 50 * 1024 * 1024 < pdf_data.length then
    .err ⟨"PDF file too large (>50MB). Please use a smaller file.", .data⟩
  else
    match env.b64decode pdf_data with
    | none => .err ⟨"Invalid base64 PDF data encoding", .data⟩
    | some pdf_bytes =>
      if !listStarts pdfMagic pdf_bytes then
        .err ⟨"Invalid PDF file format. File does not appear to be a valid PDF.", .data⟩
      else
        match env.get_form_fields pdf_bytes with
        | .error e =>
          let low := strLower e
          if strContainsSub low "corrupt" || strContainsSub low "damaged" then
            .err ⟨"PDF file appears to be corrupted or damaged", .data⟩
          else if strContainsSub low "password" || strContainsSub low "encrypted" then
            .err ⟨"PDF file is password protected or encrypted. Please provide an unprotected PDF.", .data⟩
          else
            .err ⟨"Failed to read PDF form fields: " ++ e, .runtime⟩
        | .ok fields =>
          if fields.isEmpty then .ok [] 0
          else
            let field_info := fields.map (fun p => parse_field_info p.1 p.2)
            .ok field_info field_info.length

/-- The truncated preview of available field names built at lines 540–542:
the sorted distinct names, first 10 shown, with an `(and N more)` suffix
when more than 10 distinct names exist. -/
def availablePreview (pdf_field_names : List String) : String :=
  let ss := pySortedSet pdf_field_names
  let preview := String.intercalate ", " (ss.take 10)
  if 10 < ss.length then
    preview ++ " (and " ++ toString (ss.length - 10) ++ " more)"
  else preview

/-- The per-value loop of `_validate_field_mappings` (lines 550–559):
skip null and empty-string values, reject strings longer than 10000
characters. -/
def checkValuesLoop : List (String × Value) → Option String
  | [] => none
  | (field_name, v) :: rest =>
    if v.isNull || valueEqStr v "" then checkValuesLoop rest
    else
      match v with
      | .vstr s =>
        if 10000 < s.length then
          some ("Value for field \x27" ++ field_name ++ "\x27 is too long (>10000 characters)")
        else checkValuesLoop rest
      | _ => checkValuesLoop rest

/-- `PdfProcessor._validate_field_mappings` (lines 493–567): `none` means
`{"valid": True}`, `some msg` the returned error message. -/
def validate_field_mappings (env : Env) (pdf_bytes : List Nat)
    (field_mappings : List (String × Value)) : Option String :=
  match env.get_form_fields pdf_bytes with
  | .error e =>
    let low := strLower e
    if strContainsSub low "corrupt" || strContainsSub low "damaged" then
      some "PDF file appears to be corrupted or damaged"
    else if strContainsSub low "password" || strContainsSub low "encrypted" then
      some "PDF file is password protected. Please provide an unprotected PDF."
    else
      some ("Failed to read PDF fields: " ++ e)
  | .ok pdf_fields =>
    if pdf_fields.isEmpty then
      some "PDF contains no fillable fields. Please ensure the PDF has form fields."
    else
      let pdf_field_names := pdf_fields.map Prod.fst
      let invalid_fields :=
        pySortedSet ((field_mappings.map Prod.fst).filter (fun n => !pdf_field_names.contains n))
      if !invalid_fields.isEmpty then
        some ("Fields not found in PDF: " ++ String.intercalate ", " invalid_fields ++
              ". Available fields: " ++ availablePreview pdf_field_names)
      else
        checkValuesLoop field_mappings

/-- The per-entry body of `_convert_field_mappings`'s loop (lines 586–611)
for a non-null value: the coerced string, or the message of the raised
`ValueError`.  The `json.dumps` failure branch and the generic-object
branch are unreachable for JSON-decodable values. -/
def convert_value (field_name : String) (v : Value) : Except String String :=
  match v with
  | .vnull => .ok ""
  | .vbool b => .ok (if b then "Yes" else "Off")
  | .vint n => .ok (toString n)
  | .vfloat f =>
    if f.isNaN then
      .error ("Invalid numeric value (NaN) for field \x27" ++ field_name ++ "\x27")
    else .ok f.str
  | .vstr s =>
    if 10000 < s.length then
      .error ("Value for field \x27" ++ field_name ++ "\x27 is too long (>10000 characters)")
    else .ok s
  | .vlist xs => .ok (jsonDumps (.vlist xs))
  | .vdict kvs => .ok (jsonDumps (.vdict kvs))

/-- The loop of `_convert_field_mappings` (lines 581–617): null values are
skipped, the first failing entry raises `PdfProcessingError` with the
wrapped message and kind `data`. -/
def convert_loop : List (String × Value) → Except ErrResp (List (String × String))
  | [] => .ok []
  | (field_name, v) :: rest =>
    if v.isNull then convert_loop rest
    else
      match convert_value field_name v with
      | .error msg =>
        .error ⟨"Field conversion error for \x27" ++ field_name ++ "\x27: " ++ msg, .data⟩
      | .ok s => (convert_loop rest).map (fun r => (field_name, s) :: r)

/-- `PdfProcessor._convert_field_mappings` (lines 569–625): the loop, then
the final emptiness check of lines 619–623. -/
def convert_field_mappings (field_mappings : List (String × Value)) :
    Except ErrResp (List (String × String)) :=
  match convert_loop field_mappings with
  | .error e => .error e
  | .ok converted =>
    if converted.isEmpty then
      .error ⟨"No valid field mappings found after conversion", .data⟩
    else .ok converted

/-- Python `v is not None and v != ""`, the predicate of the
`filledFieldCount` comprehension at line 395. -/
def countsAsFilled : Value → Bool
  | .vnull => false
  | .vstr s => s != ""
  | _ => true

/-- `PdfProcessor.fill_pdf` (lines 267–404), with raised
`PdfProcessingError`s folded into `.err`.  Note the order: size ceiling,
then the `if not field_mappings` truthiness check, and only then base64
decoding and the signature check.  The `PdfProcessingError` raised inside
`_convert_field_mappings` is caught by the `except Exception` of lines
327–331 and re-wrapped with the `Failed to convert field mappings:`
message (where `str(e)` is the inner message). -/
def fill_pdf (env : Env) (pdf_data : String) (field_mappings : List (String × Value))
    (options : List (String × Value)) : FillResult :=
  if 50 * 1024 * 1024 < pdf_data.length then
    .err ⟨"PDF file too large (>50MB). Please use a smaller file.", .data⟩
  else if field_mappings.isEmpty then
    .err ⟨"No field mappings provided. At least one field must be mapped.", .config⟩
  else
    match env.b64decode pdf_data with
    | none => .err ⟨"Invalid base64 PDF data encoding", .data⟩
    | some pdf_bytes =>
      if !listStarts pdfMagic pdf_bytes then
        .err ⟨"Invalid PDF file format. File does not appear to be a valid PDF.", .data⟩
      else
        match validate_field_mappings env pdf_bytes field_mappings with
        | some msg => .err ⟨msg, .data⟩
        | none =>
          match convert_field_mappings field_mappings with
          | .error e => .err ⟨"Failed to convert field mappings: " ++ e.error, .data⟩
          | .ok fillpdf_data =>
            match env.write_fillable pdf_bytes fillpdf_data
                ((lookup options "flatten").getD (.vbool false)) with
            | .error e =>
              let error_msg := strLower e
              if strContainsSub error_msg "corrupt" || strContainsSub error_msg "damaged" then
                .err ⟨"PDF file appears to be corrupted or damaged", .data⟩
              else if strContainsSub error_msg "password" || strContainsSub error_msg "encrypted" then
                .err ⟨"PDF file is password protected. Please provide an unprotected PDF.", .data⟩
              else if strContainsSub error_msg "permission" then
                .err ⟨"PDF file has restrictions that prevent form filling", .data⟩
              else if strContainsSub error_msg "field" then
                .err ⟨"Field mapping error: " ++ e, .data⟩
              else
                .err ⟨"PDF filling operation failed: " ++ e, .runtime⟩
            | .ok filled_pdf_bytes =>
              if filled_pdf_bytes.isEmpty then
                .err ⟨"PDF filling produced empty output", .runtime⟩
              else
                .ok (env.b64encode filled_pdf_bytes)
                   field_mappings.length
                   ((field_mappings.filter (fun p => countsAsFilled p.2)).length)

/-- A whole-request response as printed by `main`. -/
inductive Response where
  | inspectR (r : InspectResult) : Response
  | fillR (r : FillResult) : Response
  | errR (e : ErrResp) : Response
deriving Repr, DecidableEq

/-- Project a dict value to its pairs (used for the post-validation reads
of `fieldMappings` and `options`, which validation guarantees / `main`
defaults to `{}`; `options` of a non-dict shape is not modelled — the
node always sends a JSON object). -/
def asDict : Value → List (String × Value)
  | .vdict kvs => kvs
  | _ => []

/-- `main`'s parse-validate-dispatch pipeline (lines 655–681) on an
already JSON-parsed request object.  After `validate_input_data`
succeeds, `pdfData` is necessarily a string whose decoding succeeds (see
`validate_ok_pdfData_string`), so the non-string fallback of `pdfStr` is
unreachable. -/
def process_request (env : Env) (input_data : List (String × Value)) : Response :=
  match validate_input_data env input_data with
  | some e => .errR e
  | none =>
    let act := (lookup input_data "action").getD .vnull
    let pdfStr :=
      match (lookup input_data "pdfData").getD .vnull with
      | .vstr s => s
      | _ => ""
    if valueEqStr act "inspect" then
      .inspectR (inspect_pdf env pdfStr)
    else if valueEqStr act "fill" then
      .fillR (fill_pdf env pdfStr
        (asDict ((lookup input_data "fieldMappings").getD (.vdict [])))
        (asDict ((lookup input_data "options").getD (.vdict []))))
    else
      .errR ⟨"Unknown action: " ++ pyStr act ++ ". Valid actions are: inspect, fill", .config⟩

/-- A small concrete environment for closed runs: the decoder maps each
character to its code point (so a text starting with `%PDF` decodes to
bytes starting with the magic header), the engine reports no fields,
filling emits one byte, and encoding renders bytes as decimal text. -/
def envBase : Env where
  b64decode := fun s => some (s.data.map Char.toNat)
  get_form_fields := fun _ => .ok []
  write_fillable := fun _ _ _ => .ok [1]
  b64encode := fun bytes => String.intercalate "," (bytes.map (fun b => toString b))

/-- `envBase` with a decoder that always fails. -/
def envDecFail : Env :=
  { envBase with b64decode := fun _ => none }

/-- `envBase` with an engine reporting two form fields, `Name` and
`Subscribe`. -/
def envTwoFields : Env :=
  { envBase with get_form_fields := fun _ => .ok [("Name", .vdict []), ("Subscribe", .vdict [])] }

/-- When validation passes, `pdfData` is a string whose decoding succeeds
(justifying the unreachable fallback inside `process_request`). -/
theorem validate_ok_pdfData_string (env : Env) (input : List (String × Value))
    (h : validate_input_data env input = none) :
    ∃ s bytes, lookup input "pdfData" = some (Value.vstr s) ∧ env.b64decode s = some bytes := by
  unfold validate_input_data at h
  cases hact : lookup input "action" with
  | none => simp [hact] at h
  | some act =>
    cases hpdf : lookup input "pdfData" with
    | none => simp [hact, hpdf] at h
    | some pdfData =>
      simp only [hact, hpdf] at h
      by_cases hval : (valueEqStr act "inspect" || valueEqStr act "fill") = true
      · rw [hval] at h
        simp only [Bool.not_true, Bool.false_eq_true, if_false] at h
        by_cases htru : pdfData.isTruthy = true
        · rw [htru] at h
          simp only [Bool.not_true, Bool.false_eq_true, if_false] at h
          cases hdec : tryDecode env pdfData with
          | none => rw [hdec] at h; simp at h
          | some bytes =>
            cases pdfData with
            | vstr s => exact ⟨s, bytes, rfl, hdec⟩
            | vnull => simp [tryDecode] at hdec
            | vbool b => simp [tryDecode] at hdec
            | vint n => simp [tryDecode] at hdec
            | vfloat f => simp [tryDecode] at hdec
            | vlist xs => simp [tryDecode] at hdec
            | vdict kvs => simp [tryDecode] at hdec
        · rw [Bool.not_eq_true] at htru
          rw [htru] at h
          simp at h
      · rw [Bool.not_eq_true] at hval
        rw [hval] at h
        simp at h

/-- When the decoder fails on a present, truthy string `pdfData` of a
request with a known action, the validator itself reports invalid
base64: document bytes are decoded during the validation stage. -/
theorem validate_decode_fail (env : Env) (input : List (String × Value)) (s : String) (a : Value)
    (hact : lookup input "action" = some a)
    (hval : (valueEqStr a "inspect" || valueEqStr a "fill") = true)
    (hpdf : lookup input "pdfData" = some (Value.vstr s))
    (hs : s ≠ "")
    (hdec : env.b64decode s = none) :
    validate_input_data env input = some ⟨"Invalid base64 encoded PDF data", ErrType.data⟩ := by
  unfold validate_input_data
  simp only [hact, hpdf, hval, Bool.not_true, Bool.false_eq_true, if_false]
  have htru : (Value.vstr s).isTruthy = true := by
    simp [Value.isTruthy, hs]
  simp only [htru, Bool.not_true, Bool.false_eq_true, if_false]
  have hd : tryDecode env (Value.vstr s) = none := hdec
  simp only [hd, Option.isNone_none, if_true]

/-- Claim C1 (counterexample): the Request Validator does not behave as
claimed.  An empty `pdfData` value is rejected with `errorType=data`,
not `config`; and the validator does consult the base64 decoder (with a
failing decoder a well-formed request is rejected as invalid base64 by
`validate_input_data` itself), so document bytes are decoded during this
validation stage. -/
theorem C1_counterexample :
    validate_input_data envBase [("action", Value.vstr "inspect"), ("pdfData", Value.vstr "")] =
      some ⟨"PDF data cannot be empty", ErrType.data⟩
    ∧ validate_input_data envDecFail [("action", Value.vstr "inspect"), ("pdfData", Value.vstr "AAA")] =
      some ⟨"Invalid base64 encoded PDF data", ErrType.data⟩
    ∧ ErrType.data ≠ ErrType.config :=
  ⟨by decide, by decide, by decide⟩

/-- Claim C1 (amended): every violation detected by
`validate_input_data` produces a failure whose kind is `config` or
`data`: the two document-value violations (empty value, invalid base64)
are `data`-kind, and each structural violation (missing key, unknown
action, missing or non-mapping `fieldMappings`) is `config`-kind with a
message naming the offending field or value.  Moreover the validator
*does* base64-decode the document value at this stage: when the decoder
fails on a present, truthy string `pdfData`, the validator itself
reports invalid base64. -/
theorem C1_amended :
    (∀ (env : Env) (input : List (String × Value)) (e : ErrResp),
      validate_input_data env input = some e →
      (e.errorType = ErrType.config ∨ e.errorType = ErrType.data)
      ∧ (e.errorType = ErrType.data →
          (e.error = "PDF data cannot be empty" ∨ e.error = "Invalid base64 encoded PDF data"))
      ∧ (e.errorType = ErrType.config →
          (e.error = "Missing required field: action" ∨
           e.error = "Missing required field: pdfData" ∨
           (∃ a, lookup input "action" = some a ∧
              e.error = "Invalid action \x27" ++ pyStr a ++ "\x27. Must be one of: inspect, fill") ∨
           e.error = "Field mappings required for fill action" ∨
           e.error = "Field mappings must be a dictionary")))
    ∧ (∀ (env : Env) (input : List (String × Value)) (s : String) (a : Value),
        lookup input "action" = some a →
        (valueEqStr a "inspect" || valueEqStr a "fill") = true →
        lookup input "pdfData" = some (Value.vstr s) →
        s ≠ "" →
        env.b64decode s = none →
        validate_input_data env input = some ⟨"Invalid base64 encoded PDF data", ErrType.data⟩) := by
  constructor
  · intro env input e h
    unfold validate_input_data at h
    cases hact : lookup input "action" with
    | none =>
      simp only [hact] at h
      injection h with h
      subst h
      exact ⟨Or.inl rfl, fun hc => ErrType.noConfusion hc, fun _ => Or.inl rfl⟩
    | some act =>
      simp only [hact] at h
      cases hpdf : lookup input "pdfData" with
      | none =>
        simp only [hpdf] at h
        injection h with h
        subst h
        exact ⟨Or.inl rfl, fun hc => ErrType.noConfusion hc, fun _ => Or.inr (Or.inl rfl)⟩
      | some pdfData =>
        simp only [hpdf] at h
        by_cases hval : (valueEqStr act "inspect" || valueEqStr act "fill") = true
        · simp only [hval, Bool.not_true, Bool.false_eq_true, if_false] at h
          by_cases htru : pdfData.isTruthy = true
          · simp only [htru, Bool.not_true, Bool.false_eq_true, if_false] at h
            cases hdec : tryDecode env pdfData with
            | none =>
              simp only [hdec, Option.isNone_none, if_true] at h
              injection h with h
              subst h
              exact ⟨Or.inr rfl, fun _ => Or.inr rfl, fun hc => ErrType.noConfusion hc⟩
            | some bytes =>
              simp only [hdec, Option.isNone_some, Bool.false_eq_true, if_false] at h
              by_cases hfill : valueEqStr act "fill" = true
              · simp only [hfill, if_true] at h
                cases hfm : lookup input "fieldMappings" with
                | none =>
                  simp only [hfm] at h
                  injection h with h
                  subst h
                  exact ⟨Or.inl rfl, fun hc => ErrType.noConfusion hc,
                         fun _ => Or.inr (Or.inr (Or.inr (Or.inl rfl)))⟩
                | some fmv =>
                  simp only [hfm] at h
                  cases fmv with
                  | vdict kvs => exact absurd h (by simp)
                  | vnull =>
                    injection h with h
                    subst h
                    exact ⟨Or.inl rfl, fun hc => ErrType.noConfusion hc,
                           fun _ => Or.inr (Or.inr (Or.inr (Or.inr rfl)))⟩
                  | vbool b =>
                    injection h with h
                    subst h
                    exact ⟨Or.inl rfl, fun hc => ErrType.noConfusion hc,
                           fun _ => Or.inr (Or.inr (Or.inr (Or.inr rfl)))⟩
                  | vint n =>
                    injection h with h
                    subst h
                    exact ⟨Or.inl rfl, fun hc => ErrType.noConfusion hc,
                           fun _ => Or.inr (Or.inr (Or.inr (Or.inr rfl)))⟩
                  | vfloat f =>
                    injection h with h
                    subst h
                    exact ⟨Or.inl rfl, fun hc => ErrType.noConfusion hc,
                           fun _ => Or.inr (Or.inr (Or.inr (Or.inr rfl)))⟩
                  | vstr t =>
                    injection h with h
                    subst h
                    exact ⟨Or.inl rfl, fun hc => ErrType.noConfusion hc,
                           fun _ => Or.inr (Or.inr (Or.inr (Or.inr rfl)))⟩
                  | vlist xs =>
                    injection h with h
                    subst h
                    exact ⟨Or.inl rfl, fun hc => ErrType.noConfusion hc,
                           fun _ => Or.inr (Or.inr (Or.inr (Or.inr rfl)))⟩
              · rw [Bool.not_eq_true] at hfill
                simp only [hfill, Bool.false_eq_true, if_false] at h
                exact Option.noConfusion h
          · rw [Bool.not_eq_true] at htru
            simp only [htru, Bool.not_false, if_true] at h
            injection h with h
            subst h
            exact ⟨Or.inr rfl, fun _ => Or.inl rfl, fun hc => ErrType.noConfusion hc⟩
        · rw [Bool.not_eq_true] at hval
          simp only [hval, Bool.not_false, if_true] at h
          injection h with h
          subst h
          exact ⟨Or.inl rfl, fun hc => ErrType.noConfusion hc,
                 fun _ => Or.inr (Or.inr (Or.inl ⟨act, rfl, rfl⟩))⟩
  · exact validate_decode_fail

/-- Claim C1 (witness): the amended theorem applied to the concrete
empty-`pdfData` request and to a concrete request with a failing
decoder. -/
theorem C1_amended_witness :
    (ErrType.data = ErrType.config ∨ ErrType.data = ErrType.data)
    ∧ validate_input_data envDecFail [("action", Value.vstr "inspect"), ("pdfData", Value.vstr "AAA")] =
        some ⟨"Invalid base64 encoded PDF data", ErrType.data⟩ :=
  ⟨(C1_amended.1 envBase [("action", Value.vstr "inspect"), ("pdfData", Value.vstr "")]
      ⟨"PDF data cannot be empty", ErrType.data⟩ (by decide)).1,
   C1_amended.2 envDecFail [("action", Value.vstr "inspect"), ("pdfData", Value.vstr "AAA")]
      "AAA" (Value.vstr "inspect") rfl (by decide) rfl (by decide) rfl⟩

/-- Claim C2 (counterexample): in `fill_pdf` the non-empty
`fieldMappings` requirement is checked *before* base64 decoding and the
signature check.  Here the document text decodes to bytes failing the
`%PDF` signature, yet with empty `fieldMappings` the response is the
`config`-kind empty-mappings error, not the `data`-kind invalid-format
error the claim predicts. -/
theorem C2_counterexample :
    envBase.b64decode "ABC" = some [65, 66, 67]
    ∧ listStarts pdfMagic [65, 66, 67] = false
    ∧ fill_pdf envBase "ABC" [] [] =
        .err ⟨"No field mappings provided. At least one field must be mapped.", ErrType.config⟩
    ∧ ErrType.config ≠ ErrType.data :=
  ⟨by decide, by decide, by decide, by decide⟩

/-- Claim C2 (amended): in the fill operation the non-empty
`fieldMappings` requirement is enforced before base64 decoding and the
signature check: a fill request within the size ceiling with empty
`fieldMappings` always yields the `config`-kind empty-mappings error
(regardless of the document bytes), and the `data`-kind invalid-format
error occurs exactly when `fieldMappings` is non-empty and the decoded
bytes fail the magic-header check. -/
theorem C2_amended (env : Env) (s : String) (fm opts : List (String × Value)) :
    (fm = [] → s.length ≤ 50 * 1024 * 1024 →
      fill_pdf env s fm opts =
        .err ⟨"No field mappings provided. At least one field must be mapped.", ErrType.config⟩)
    ∧ (∀ bytes, fm ≠ [] → s.length ≤ 50 * 1024 * 1024 →
        env.b64decode s = some bytes →
        listStarts pdfMagic bytes = false →
        fill_pdf env s fm opts =
          .err ⟨"Invalid PDF file format. File does not appear to be a valid PDF.", ErrType.data⟩) := by
  constructor
  · intro hfm hsize
    subst hfm
    unfold fill_pdf
    rw [if_neg (Nat.not_lt.mpr hsize)]
    rfl
  · intro bytes hfm hsize hdec hsig
    unfold fill_pdf
    rw [if_neg (Nat.not_lt.mpr hsize)]
    have hemp : fm.isEmpty = false := by
      cases fm with
      | nil => exact absurd rfl hfm
      | cons p r => rfl
    simp only [hemp, Bool.false_eq_true, if_false, hdec, hsig, Bool.not_false, if_true]

/-- Claim C2 (witness): the amended theorem applied to a concrete
environment where `"ABC"` decodes to non-PDF bytes. -/
theorem C2_amended_witness :
    fill_pdf envBase "ABC" [] [] =
      .err ⟨"No field mappings provided. At least one field must be mapped.", ErrType.config⟩
    ∧ fill_pdf envBase "ABC" [("a", Value.vstr "x")] [] =
      .err ⟨"Invalid PDF file format. File does not appear to be a valid PDF.", ErrType.data⟩ :=
  ⟨(C2_amended envBase "ABC" [] []).1 rfl (by decide),
   (C2_amended envBase "ABC" [("a", Value.vstr "x")] []).2 [65, 66, 67]
     (List.cons_ne_nil _ _) (by decide) (by decide) (by decide)⟩

/-- A base64 text one character past the 50MB ceiling. -/
def bigStr : String := String.mk (List.replicate (50 * 1024 * 1024 + 1) 'A')

/-- The length of `bigStr`. -/
theorem bigStr_length : bigStr.length = 50 * 1024 * 1024 + 1 :=
  List.length_replicate _ _

/-- `bigStr` is not the empty string. -/
theorem bigStr_ne : bigStr ≠ "" := by
  intro h
  have h2 := congrArg String.length h
  rw [bigStr_length] at h2
  simp at h2

/-- An over-ceiling inspect request. -/
def bigInput : List (String × Value) :=
  [("action", Value.vstr "inspect"), ("pdfData", Value.vstr bigStr)]

/-- Claim C3 (counterexample): the 50MB ceiling is *not* enforced before
every base64 decode in the pipeline: `validate_input_data` decodes the
document (to check encoding validity) with no size limit, before either
operation's ceiling runs.  Observably, for the same over-ceiling request
the pipeline's answer depends on the decoder: with a failing decoder the
validator's invalid-base64 error wins; with a working decoder the
operation's too-large error appears.  If the ceiling were checked before
any decoding, both environments would give the same response. -/
theorem C3_counterexample :
    50 * 1024 * 1024 < bigStr.length
    ∧ process_request envDecFail bigInput =
        .errR ⟨"Invalid base64 encoded PDF data", ErrType.data⟩
    ∧ process_request envBase bigInput =
        .inspectR (.err ⟨"PDF file too large (>50MB). Please use a smaller file.", ErrType.data⟩)
    ∧ ("Invalid base64 encoded PDF data" : String) ≠
        "PDF file too large (>50MB). Please use a smaller file." := by
  refine ⟨by rw [bigStr_length]; omega, ?_, ?_, by decide⟩
  · have hv : validate_input_data envDecFail bigInput =
        some ⟨"Invalid base64 encoded PDF data", ErrType.data⟩ :=
      validate_decode_fail envDecFail bigInput bigStr (Value.vstr "inspect") rfl (by decide) rfl bigStr_ne rfl
    unfold process_request
    rw [hv]
  · have hv : validate_input_data envBase bigInput = none := by
      unfold validate_input_data
      have h1 : lookup bigInput "action" = some (Value.vstr "inspect") := rfl
      have h2 : lookup bigInput "pdfData" = some (Value.vstr bigStr) := rfl
      simp only [h1, h2]
      have htru : (Value.vstr bigStr).isTruthy = true := by
        simp [Value.isTruthy, bigStr_ne]
      have hd : (tryDecode envBase (Value.vstr bigStr)).isNone = false := rfl
      simp [htru, hd, valueEqStr]
    unfold process_request
    rw [hv]
    have hbig : inspect_pdf envBase bigStr =
        .err ⟨"PDF file too large (>50MB). Please use a smaller file.", ErrType.data⟩ := by
      unfold inspect_pdf
      rw [if_pos (by rw [bigStr_length]; omega)]
    simp only [lookup, bigInput]
    simp [valueEqStr, hbig]

/-- Claim C3 (amended): both operations reject a base64 input longer
than 50MB with the `data`-kind too-large error, and within each
operation this ceiling is checked before the operation's own decode
(the result does not depend on the environment's decoder at all);
however, the request validator has already base64-decoded the input to
check encoding validity before either operation runs, so the ceiling is
not enforced before *every* decode in the pipeline. -/
theorem C3_amended (env : Env) (s : String) (fm opts : List (String × Value))
    (h : 50 * 1024 * 1024 < s.length) :
    inspect_pdf env s =
      .err ⟨"PDF file too large (>50MB). Please use a smaller file.", ErrType.data⟩
    ∧ fill_pdf env s fm opts =
      .err ⟨"PDF file too large (>50MB). Please use a smaller file.", ErrType.data⟩ := by
  constructor
  · unfold inspect_pdf
    rw [if_pos h]
  · unfold fill_pdf
    rw [if_pos h]

/-- Claim C3 (witness): the amended theorem applied to the concrete
over-ceiling input `bigStr`. -/
theorem C3_amended_witness :
    inspect_pdf envBase bigStr =
      .err ⟨"PDF file too large (>50MB). Please use a smaller file.", ErrType.data⟩
    ∧ fill_pdf envBase bigStr [] [] =
      .err ⟨"PDF file too large (>50MB). Please use a smaller file.", ErrType.data⟩ :=
  C3_amended envBase bigStr [] [] (by rw [bigStr_length]; omega)

/-- `convert_field_mappings` succeeds only via a successful loop. -/
theorem conv_ok_loop (fm : List (String × Value)) (c : List (String × String))
    (h : convert_field_mappings fm = .ok c) : convert_loop fm = .ok c := by
  unfold convert_field_mappings at h
  cases hl : convert_loop fm with
  | error e =>
    simp only [hl] at h
    exact Except.noConfusion h
  | ok c2 =>
    simp only [hl] at h
    by_cases hemp : c2.isEmpty = true
    · simp only [hemp, if_true] at h
      exact Except.noConfusion h
    · rw [Bool.not_eq_true] at hemp
      simp only [hemp, Bool.false_eq_true, if_false] at h
      injection h with h
      subst h
      rfl

/-- A successful conversion loop keeps exactly the non-null entries, in
order and under their own keys. -/
theorem conv_loop_keys (fm : List (String × Value)) (c : List (String × String))
    (h : convert_loop fm = .ok c) :
    c.map Prod.fst = (fm.filter (fun p => !p.2.isNull)).map Prod.fst := by
  induction fm generalizing c with
  | nil =>
    injection h with h
    subst h
    rfl
  | cons p rest ih =>
    obtain ⟨n, v⟩ := p
    unfold convert_loop at h
    cases hv : v.isNull with
    | true =>
      simp only [hv, if_true] at h
      rw [List.filter_cons_of_neg (by simp [hv])]
      exact ih c h
    | false =>
      simp only [hv, Bool.false_eq_true, if_false] at h
      cases hcv : convert_value n v with
      | error msg =>
        simp only [hcv] at h
        exact Except.noConfusion h
      | ok s =>
        simp only [hcv] at h
        cases hrest : convert_loop rest with
        | error e =>
          simp only [hrest, Except.map] at h
          exact Except.noConfusion h
        | ok c2 =>
          simp only [hrest, Except.map] at h
          injection h with h
          subst h
          rw [List.filter_cons_of_pos (by simp [hv])]
          simp only [List.map_cons]
          rw [ih c2 hrest]

/-- A successful conversion loop contains the converted image of every
non-null entry. -/
theorem conv_loop_mem (fm : List (String × Value)) (c : List (String × String))
    (k : String) (v : Value) (s : String)
    (h : convert_loop fm = .ok c) (hmem : (k, v) ∈ fm)
    (hnn : v.isNull = false) (hcv : convert_value k v = .ok s) :
    (k, s) ∈ c := by
  induction fm generalizing c with
  | nil => cases hmem
  | cons p rest ih =>
    obtain ⟨n, w⟩ := p
    unfold convert_loop at h
    rcases List.mem_cons.mp hmem with heq | hmem2
    · have hn : k = n := congrArg Prod.fst heq
      have hw : v = w := congrArg Prod.snd heq
      subst hn
      subst hw
      simp only [hnn, Bool.false_eq_true, if_false, hcv] at h
      cases hrest : convert_loop rest with
      | error e =>
        simp only [hrest, Except.map] at h
        exact Except.noConfusion h
      | ok c2 =>
        simp only [hrest, Except.map] at h
        injection h with h
        subst h
        exact List.mem_cons_self _ _
    · cases hw : w.isNull with
      | true =>
        simp only [hw, if_true] at h
        exact ih c h hmem2
      | false =>
        simp only [hw, Bool.false_eq_true, if_false] at h
        cases hcw : convert_value n w with
        | error msg =>
          simp only [hcw] at h
          exact Except.noConfusion h
        | ok t =>
          simp only [hcw] at h
          cases hrest : convert_loop rest with
          | error e =>
            simp only [hrest, Except.map] at h
            exact Except.noConfusion h
          | ok c2 =>
            simp only [hrest, Except.map] at h
            injection h with h
            subst h
            exact List.mem_cons_of_mem _ (ih c2 hrest hmem2)

/-- Every failure the conversion loop raises is of kind `data`. -/
theorem conv_loop_err_kind (fm : List (String × Value)) (e : ErrResp)
    (h : convert_loop fm = .error e) : e.errorType = ErrType.data := by
  induction fm generalizing e with
  | nil => exact Except.noConfusion h
  | cons p rest ih =>
    obtain ⟨n, v⟩ := p
    unfold convert_loop at h
    cases hv : v.isNull with
    | true =>
      simp only [hv, if_true] at h
      exact ih e h
    | false =>
      simp only [hv, Bool.false_eq_true, if_false] at h
      cases hcv : convert_value n v with
      | error msg =>
        simp only [hcv] at h
        injection h with h
        subst h
        rfl
      | ok s =>
        simp only [hcv] at h
        cases hrest : convert_loop rest with
        | error e2 =>
          simp only [hrest, Except.map] at h
          injection h with h
          subst h
          exact ih _ hrest
        | ok c2 =>
          simp only [hrest, Except.map] at h
          exact Except.noConfusion h

/-- A mapping containing a NaN float entry makes the conversion loop
fail. -/
theorem conv_loop_nan (fm : List (String × Value)) (k : String) (f : PyFloat)
    (hmem : (k, Value.vfloat f) ∈ fm) (hnan : f.isNaN = true) :
    ∃ e, convert_loop fm = .error e := by
  induction fm with
  | nil => cases hmem
  | cons p rest ih =>
    obtain ⟨n, w⟩ := p
    rcases List.mem_cons.mp hmem with heq | hmem2
    · have hw : Value.vfloat f = w := congrArg Prod.snd heq
      subst hw
      refine ⟨⟨"Field conversion error for \x27" ++ n ++ "\x27: " ++
        ("Invalid numeric value (NaN) for field \x27" ++ n ++ "\x27"), ErrType.data⟩, ?_⟩
      unfold convert_loop
      have hnull : (Value.vfloat f).isNull = false := rfl
      simp only [hnull, Bool.false_eq_true, if_false]
      have hcv : convert_value n (Value.vfloat f) =
          .error ("Invalid numeric value (NaN) for field \x27" ++ n ++ "\x27") := by
        unfold convert_value
        simp only [hnan, if_true]
      simp only [hcv]
    · obtain ⟨e, he⟩ := ih hmem2
      cases hw : w.isNull with
      | true =>
        refine ⟨e, ?_⟩
        unfold convert_loop
        simp only [hw, if_true]
        exact he
      | false =>
        cases hcw : convert_value n w with
        | error msg =>
          refine ⟨⟨"Field conversion error for \x27" ++ n ++ "\x27: " ++ msg, ErrType.data⟩, ?_⟩
          unfold convert_loop
          simp only [hw, Bool.false_eq_true, if_false, hcw]
        | ok t =>
          refine ⟨e, ?_⟩
          unfold convert_loop
          simp only [hw, Bool.false_eq_true, if_false, hcw, he, Except.map]

/-- A successful conversion implies the value-checking loop of
`_validate_field_mappings` passes: every non-null string value fits the
10000-character ceiling. -/
theorem conv_loop_checkValues (fm : List (String × Value)) (c : List (String × String))
    (h : convert_loop fm = .ok c) : checkValuesLoop fm = none := by
  induction fm generalizing c with
  | nil => rfl
  | cons p rest ih =>
    obtain ⟨n, v⟩ := p
    unfold convert_loop at h
    unfold checkValuesLoop
    cases hv : v.isNull with
    | true =>
      simp only [hv, if_true] at h
      simp only [hv, Bool.true_or, if_true]
      exact ih c h
    | false =>
      simp only [hv, Bool.false_eq_true, if_false] at h
      cases hcv : convert_value n v with
      | error msg =>
        simp only [hcv] at h
        exact Except.noConfusion h
      | ok s =>
        simp only [hcv] at h
        cases hrest : convert_loop rest with
        | error e =>
          simp only [hrest, Except.map] at h
          exact Except.noConfusion h
        | ok c2 =>
          have htail := ih c2 hrest
          cases v with
          | vnull => simp [Value.isNull] at hv
          | vstr t =>
            by_cases ht : t = ""
            · subst ht
              simpa [valueEqStr] using htail
            · have hlen : ¬ 10000 < t.length := by
                intro hl
                unfold convert_value at hcv
                simp only [hl, if_true] at hcv
                exact Except.noConfusion hcv
              simp only [hv, Bool.false_or]
              simp [valueEqStr, ht, hlen]
              exact htail
          | vbool b => simpa [valueEqStr] using htail
          | vint m => simpa [valueEqStr] using htail
          | vfloat f => simpa [valueEqStr] using htail
          | vlist xs => simpa [valueEqStr] using htail
          | vdict kvs => simpa [valueEqStr] using htail

/-- A successful conversion starts from a non-empty mapping (the empty
mapping converts to the empty dict, which the final check rejects). -/
theorem conv_ok_ne_nil (fm : List (String × Value)) (c : List (String × String))
    (h : convert_field_mappings fm = .ok c) : fm.isEmpty = false := by
  cases fm with
  | nil =>
    unfold convert_field_mappings convert_loop at h
    simp only [List.isEmpty_nil, if_true] at h
    exact Except.noConfusion h
  | cons p r => rfl

/-- Claim C7 (confirmed): boolean coercion is total and fixed — the
per-entry coercion maps every boolean to `"Yes"`/`"Off"` (the boolean
branch of `_convert_field_mappings` runs before the numeric branch, so
a boolean never becomes a decimal string), and every boolean entry of a
successfully converted mapping appears in the result under its key with
exactly that sentinel string. -/
theorem C7 :
    (∀ (name : String) (b : Bool),
      convert_value name (Value.vbool b) = .ok (if b then "Yes" else "Off"))
    ∧ (∀ (fm : List (String × Value)) (converted : List (String × String)) (k : String) (b : Bool),
        convert_field_mappings fm = .ok converted →
        (k, Value.vbool b) ∈ fm →
        (k, if b then "Yes" else "Off") ∈ converted) := by
  constructor
  · intro name b
    rfl
  · intro fm converted k b hconv hmem
    exact conv_loop_mem fm converted k (Value.vbool b) (if b then "Yes" else "Off")
      (conv_ok_loop fm converted hconv) hmem rfl rfl

/-- Claim C7 (witness): the coercion theorem applied to a concrete
mapping with both boolean values. -/
theorem C7_witness :
    convert_value "Subscribe" (Value.vbool true) = .ok (if true then "Yes" else "Off")
    ∧ ("Subscribe", if true then "Yes" else "Off") ∈ [("Subscribe", "Yes"), ("Optout", "Off")] :=
  ⟨C7.1 "Subscribe" true,
   C7.2 [("Subscribe", Value.vbool true), ("Optout", Value.vbool false)]
     [("Subscribe", "Yes"), ("Optout", "Off")] "Subscribe" true rfl (List.Mem.head _)⟩

/-- Claim C8 (confirmed): a NaN float value anywhere in the mapping
makes the whole conversion fail with a `data`-kind error (so it is never
silently coerced to a `"nan"` string), and the per-entry coercion of the
NaN value itself fails with the message naming the offending field. -/
theorem C8 (fm : List (String × Value)) (k : String) (f : PyFloat)
    (hmem : (k, Value.vfloat f) ∈ fm) (hnan : f.isNaN = true) :
    (∃ e, convert_field_mappings fm = .error e ∧ e.errorType = ErrType.data)
    ∧ convert_value k (Value.vfloat f) =
        .error ("Invalid numeric value (NaN) for field \x27" ++ k ++ "\x27") := by
  obtain ⟨e, he⟩ := conv_loop_nan fm k f hmem hnan
  refine ⟨⟨e, ?_, conv_loop_err_kind fm e he⟩, ?_⟩
  · unfold convert_field_mappings
    simp only [he]
  · unfold convert_value
    simp only [hnan, if_true]

/-- Claim C8 (witness): the NaN theorem applied to a concrete one-entry
mapping. -/
theorem C8_witness :
    (∃ e, convert_field_mappings [("Amount", Value.vfloat ⟨true, false, false, 0, "nan"⟩)] = .error e
       ∧ e.errorType = ErrType.data)
    ∧ convert_value "Amount" (Value.vfloat ⟨true, false, false, 0, "nan"⟩) =
        .error ("Invalid numeric value (NaN) for field \x27" ++ "Amount" ++ "\x27") :=
  C8 [("Amount", Value.vfloat ⟨true, false, false, 0, "nan"⟩)] "Amount"
    ⟨true, false, false, 0, "nan"⟩ (List.Mem.head _) rfl

/-- Claim C10 (confirmed): value coercion drops exactly the null-valued
entries — the converted mapping's keys are precisely those of the
non-null entries, an empty-string value is kept (it is forwarded to the
fill engine under its key), and a fill whose mapping consists of one
empty-string value succeeds with `filledFieldCount` equal to 0. -/
theorem C10 :
    (∀ (fm : List (String × Value)) (converted : List (String × String)),
      convert_field_mappings fm = .ok converted →
      converted.map Prod.fst = (fm.filter (fun p => !p.2.isNull)).map Prod.fst)
    ∧ (∀ (fm : List (String × Value)) (converted : List (String × String)) (k : String),
        convert_field_mappings fm = .ok converted →
        (k, Value.vstr "") ∈ fm →
        (k, "") ∈ converted)
    ∧ fill_pdf envTwoFields "%PDF-1.4" [("Name", Value.vstr "")] [] = .ok "1" 1 0 := by
  refine ⟨?_, ?_, by decide⟩
  · intro fm converted h
    exact conv_loop_keys fm converted (conv_ok_loop fm converted h)
  · intro fm converted k h hmem
    exact conv_loop_mem fm converted k (Value.vstr "") ""
      (conv_ok_loop fm converted h) hmem rfl rfl

/-- Claim C10 (witness): the coercion-filter theorem applied to a
concrete mapping with a null entry and an empty-string entry. -/
theorem C10_witness :
    ([("Name", "x"), ("Note", "")] : List (String × String)).map Prod.fst =
      ([("Name", Value.vstr "x"), ("Skip", Value.vnull), ("Note", Value.vstr "")].filter
        (fun p => !p.2.isNull)).map Prod.fst
    ∧ ("Note", "") ∈ ([("Name", "x"), ("Note", "")] : List (String × String)) :=
  ⟨C10.1 [("Name", Value.vstr "x"), ("Skip", Value.vnull), ("Note", Value.vstr "")]
     [("Name", "x"), ("Note", "")] rfl,
   C10.2.1 [("Name", Value.vstr "x"), ("Skip", Value.vnull), ("Note", Value.vstr "")]
     [("Name", "x"), ("Note", "")] "Note" rfl
     (List.Mem.tail _ (List.Mem.tail _ (List.Mem.head _)))⟩

/-- The success path of `inspect_pdf`: within the ceiling, with decode,
signature and engine succeeding, the response maps `parse_field_info`
over the engine's fields (in order) and reports the engine's field
count. -/
theorem inspect_ok_spec (env : Env) (s : String) (bytes : List Nat)
    (flds : List (String × Value))
    (hsize : s.length ≤ 50 * 1024 * 1024)
    (hdec : env.b64decode s = some bytes)
    (hsig : listStarts pdfMagic bytes = true)
    (hflds : env.get_form_fields bytes = .ok flds) :
    inspect_pdf env s = .ok (flds.map fun p => parse_field_info p.1 p.2) flds.length := by
  unfold inspect_pdf
  rw [if_neg (Nat.not_lt.mpr hsize)]
  simp only [hdec, hsig, Bool.not_true, Bool.false_eq_true, if_false, hflds]
  cases flds with
  | nil => rfl
  | cons p r =>
    simp only [List.isEmpty_cons, Bool.false_eq_true, if_false]
    rw [List.length_map]

/-- Claim C6 (confirmed): when the core of `_parse_field_info` fails for
one field, the returned descriptor is the fallback — kind `text`,
`required` false, null `defaultValue`, no options and no `maxLength` —
carrying the failure text in `parseError` and a non-empty name (the
literal `"unknown"` when the field name was empty); and the inspect
response is a per-field map, so every other field's descriptor is
computed from that field's own name and metadata alone. -/
theorem C6 :
    (∀ (name : String) (fd : Value) (err : String),
      parse_field_info_core name fd = .error err →
      parse_field_info name fd =
        ⟨if name == "" then "unknown" else name, "text", false, none, none, none, some err⟩
      ∧ (parse_field_info name fd).name ≠ "")
    ∧ (∀ (env : Env) (s : String) (bytes : List Nat) (flds : List (String × Value)),
        s.length ≤ 50 * 1024 * 1024 →
        env.b64decode s = some bytes →
        listStarts pdfMagic bytes = true →
        env.get_form_fields bytes = .ok flds →
        inspect_pdf env s =
          .ok (flds.map fun p => parse_field_info p.1 p.2)
            (flds.map fun p => parse_field_info p.1 p.2).length) := by
  constructor
  · intro name fd err h
    constructor
    · unfold parse_field_info
      rw [h]
    · unfold parse_field_info
      rw [h]
      by_cases hn : name == ""
      · simp only [hn, if_true]
        decide
      · rw [Bool.not_eq_true] at hn
        simp only [hn, Bool.false_eq_true, if_false]
        intro hc
        rw [hc] at hn
        simp at hn
  · intro env s bytes flds hsize hdec hsig hflds
    rw [List.length_map]
    exact inspect_ok_spec env s bytes flds hsize hdec hsig hflds

/-- Claim C6 (witness): the fallback theorem applied to a field with an
empty name, and the map form of inspect on a concrete document. -/
theorem C6_witness :
    parse_field_info "" (Value.vdict [("type", Value.vstr "radio")]) =
      ⟨"unknown", "text", false, none, none, none, some "Invalid field name"⟩
    ∧ (parse_field_info "" (Value.vdict [("type", Value.vstr "radio")])).name ≠ ""
    ∧ inspect_pdf envTwoFields "%PDF-1.4" =
        .ok [⟨"Name", "text", false, none, none, none, none⟩,
             ⟨"Subscribe", "text", false, none, none, none, none⟩] 2 := by
  obtain ⟨h1, h2⟩ := C6.1 "" (Value.vdict [("type", Value.vstr "radio")]) "Invalid field name" rfl
  refine ⟨?_, h2, ?_⟩
  · rw [h1]
    decide
  · exact C6.2 envTwoFields "%PDF-1.4" [37, 80, 68, 70, 45, 49, 46, 52]
      [("Name", .vdict []), ("Subscribe", .vdict [])] (by decide) (by decide) (by decide) rfl

/-- Claim C9 (confirmed): the embedded `_parse_field_info` is a total
function (every raise inside the Python body is caught by its own
handler, so the `except: continue` guard in the inspect loop can never
fire), and a successful inspect returns exactly one descriptor per
engine-reported field with `fieldCount` equal to the engine's field
count. -/
theorem C9 (env : Env) (s : String) (bytes : List Nat) (flds : List (String × Value))
    (hsize : s.length ≤ 50 * 1024 * 1024)
    (hdec : env.b64decode s = some bytes)
    (hsig : listStarts pdfMagic bytes = true)
    (hflds : env.get_form_fields bytes = .ok flds) :
    inspect_pdf env s = .ok (flds.map fun p => parse_field_info p.1 p.2) flds.length
    ∧ (flds.map fun p => parse_field_info p.1 p.2).length = flds.length :=
  ⟨inspect_ok_spec env s bytes flds hsize hdec hsig hflds, List.length_map _ _⟩

/-- Claim C9 (witness): the inspect theorem applied to a concrete
two-field document. -/
theorem C9_witness :
    inspect_pdf envTwoFields "%PDF-1.4" =
      .ok ([("Name", Value.vdict []), ("Subscribe", Value.vdict [])].map
        fun p => parse_field_info p.1 p.2) 2
    ∧ ([("Name", Value.vdict []), ("Subscribe", Value.vdict [])].map
        fun p => parse_field_info p.1 p.2).length = 2 :=
  C9 envTwoFields "%PDF-1.4" [37, 80, 68, 70, 45, 49, 46, 52]
    [("Name", .vdict []), ("Subscribe", .vdict [])] (by decide) (by decide) (by decide) rfl

/-- Inserting never produces the empty list. -/
theorem insertSorted_ne_nil (x : String) (l : List String) : insertSorted x l ≠ [] := by
  cases l with
  | nil => simp [insertSorted]
  | cons y ys =>
    unfold insertSorted
    by_cases h : strLe x y = true
    · simp [h]
    · rw [Bool.not_eq_true] at h
      simp [h]

/-- Sorting a non-empty list is non-empty. -/
theorem pySorted_ne_nil (l : List String) (h : l ≠ []) : pySorted l ≠ [] := by
  cases l with
  | nil => exact absurd rfl h
  | cons x xs => exact insertSorted_ne_nil x (pySorted xs)

/-- Deduplicating a non-empty list is non-empty. -/
theorem dedupSorted_ne_nil (l : List String) (h : l ≠ []) : dedupSorted l ≠ [] := by
  induction l with
  | nil => exact absurd rfl h
  | cons x xs ih =>
    cases xs with
    | nil => simp [dedupSorted]
    | cons y ys =>
      unfold dedupSorted
      by_cases hxy : (x == y) = true
      · simp only [hxy, if_true]
        exact ih (List.cons_ne_nil _ _)
      · rw [Bool.not_eq_true] at hxy
        simp [hxy]

/-- The sorted set of a non-empty list is non-empty. -/
theorem pySortedSet_ne_nil (l : List String) (h : l ≠ []) : pySortedSet l ≠ [] :=
  dedupSorted_ne_nil _ (pySorted_ne_nil l h)

/-- Insertion preserves membership. -/
theorem mem_insertSorted (a x : String) (l : List String) :
    a ∈ insertSorted x l ↔ a = x ∨ a ∈ l := by
  induction l with
  | nil => simp [insertSorted]
  | cons y ys ih =>
    unfold insertSorted
    by_cases h : strLe x y = true
    · simp only [h, if_true, List.mem_cons]
    · rw [Bool.not_eq_true] at h
      simp only [h, Bool.false_eq_true, if_false, List.mem_cons, ih]
      tauto

/-- Sorting preserves membership. -/
theorem mem_pySorted (a : String) (l : List String) :
    a ∈ pySorted l ↔ a ∈ l := by
  induction l with
  | nil => simp [pySorted]
  | cons x xs ih =>
    unfold pySorted
    rw [mem_insertSorted, ih, List.mem_cons]

/-- Deduplication preserves membership. -/
theorem mem_dedupSorted (a : String) (l : List String) :
    a ∈ dedupSorted l ↔ a ∈ l := by
  induction l with
  | nil => simp [dedupSorted]
  | cons x xs ih =>
    cases xs with
    | nil => simp [dedupSorted]
    | cons y ys =>
      unfold dedupSorted
      by_cases hxy : (x == y) = true
      · have hxyeq : x = y := eq_of_beq hxy
        subst hxyeq
        simp only [hxy, if_true, ih, List.mem_cons]
        tauto
      · rw [Bool.not_eq_true] at hxy
        simp only [hxy, Bool.false_eq_true, if_false, List.mem_cons, ih]

/-- The sorted set has exactly the members of the original list. -/
theorem mem_pySortedSet (a : String) (l : List String) :
    a ∈ pySortedSet l ↔ a ∈ l := by
  unfold pySortedSet
  rw [mem_dedupSorted, mem_pySorted]

/-- The success path of `_validate_field_mappings`: with the engine
succeeding on a non-empty field dict, every mapped key a real field
name, and the per-value checks passing, validation reports valid. -/
theorem validate_fm_ok (env : Env) (bytes : List Nat)
    (fm flds : List (String × Value))
    (hflds : env.get_form_fields bytes = .ok flds)
    (hne : flds ≠ [])
    (hsub : ∀ k ∈ fm.map Prod.fst, k ∈ flds.map Prod.fst)
    (hvals : checkValuesLoop fm = none) :
    validate_field_mappings env bytes fm = none := by
  unfold validate_field_mappings
  simp only [hflds]
  have hemp : flds.isEmpty = false := by
    cases flds with
    | nil => exact absurd rfl hne
    | cons p r => rfl
  simp only [hemp, Bool.false_eq_true, if_false]
  have hfil : (fm.map Prod.fst).filter (fun n => !(flds.map Prod.fst).contains n) = [] := by
    rw [List.filter_eq_nil_iff]
    intro a ha
    have hmem := hsub a ha
    simp [List.contains, List.elem_iff, hmem]
  rw [hfil]
  simpa using hvals

/-- The unknown-keys failure path of `_validate_field_mappings`. -/
theorem validate_fm_bad (env : Env) (bytes : List Nat)
    (fm flds : List (String × Value))
    (hflds : env.get_form_fields bytes = .ok flds)
    (hne : flds ≠ [])
    (hbad : ∃ k, k ∈ fm.map Prod.fst ∧ k ∉ flds.map Prod.fst) :
    validate_field_mappings env bytes fm =
      some ("Fields not found in PDF: " ++
        String.intercalate ", " (pySortedSet ((fm.map Prod.fst).filter
          (fun n => !(flds.map Prod.fst).contains n))) ++
        ". Available fields: " ++ availablePreview (flds.map Prod.fst)) := by
  unfold validate_field_mappings
  simp only [hflds]
  have hemp : flds.isEmpty = false := by
    cases flds with
    | nil => exact absurd rfl hne
    | cons p r => rfl
  simp only [hemp, Bool.false_eq_true, if_false]
  obtain ⟨k, hk, hnk⟩ := hbad
  have hkf : k ∈ (fm.map Prod.fst).filter (fun n => !(flds.map Prod.fst).contains n) := by
    rw [List.mem_filter]
    refine ⟨hk, ?_⟩
    simp [List.contains, List.elem_iff, hnk]
  have hpsne := pySortedSet_ne_nil _ (List.ne_nil_of_mem hkf)
  have hinv : (pySortedSet ((fm.map Prod.fst).filter
      (fun n => !(flds.map Prod.fst).contains n))).isEmpty = false := by
    cases hps : pySortedSet ((fm.map Prod.fst).filter
        (fun n => !(flds.map Prod.fst).contains n)) with
    | nil => exact absurd hps hpsne
    | cons q r => rfl
  simp only [hinv, Bool.not_false, if_true]

/-- Claim C4 (confirmed): for a document whose engine-reported field
names strictly include the mapping's keys, with the whole mapping
passing coercion (which entails at least one non-null value) and the
engine's fill succeeding with non-empty output, `fill_pdf` succeeds and
`filledFieldCount` is the number of entries whose value is neither null
nor the empty string. -/
theorem C4 (env : Env) (s : String) (bytes outBytes : List Nat)
    (fm opts flds : List (String × Value)) (converted : List (String × String))
    (hsize : s.length ≤ 50 * 1024 * 1024)
    (hdec : env.b64decode s = some bytes)
    (hsig : listStarts pdfMagic bytes = true)
    (hflds : env.get_form_fields bytes = .ok flds)
    (hsub : ∀ k ∈ fm.map Prod.fst, k ∈ flds.map Prod.fst)
    (hstrict : ∃ k, k ∈ flds.map Prod.fst ∧ k ∉ fm.map Prod.fst)
    (hconv : convert_field_mappings fm = .ok converted)
    (hwrite : env.write_fillable bytes converted
      ((lookup opts "flatten").getD (.vbool false)) = .ok outBytes)
    (hout : outBytes ≠ []) :
    fill_pdf env s fm opts =
      .ok (env.b64encode outBytes) fm.length
        ((fm.filter (fun p => countsAsFilled p.2)).length) := by
  have hfldsne : flds ≠ [] := by
    obtain ⟨k, hk, _⟩ := hstrict
    intro hc
    subst hc
    simp at hk
  have hvfm := validate_fm_ok env bytes fm flds hflds hfldsne hsub
    (conv_loop_checkValues fm converted (conv_ok_loop fm converted hconv))
  have houtemp : outBytes.isEmpty = false := by
    cases outBytes with
    | nil => exact absurd rfl hout
    | cons b r => rfl
  unfold fill_pdf
  rw [if_neg (Nat.not_lt.mpr hsize)]
  simp only [conv_ok_ne_nil fm converted hconv, Bool.false_eq_true, if_false,
    hdec, hsig, Bool.not_true, hvfm, hconv, hwrite, houtemp]

/-- Claim C4 (witness): the fill-success theorem applied to a concrete
two-field document with a one-key mapping. -/
theorem C4_witness :
    fill_pdf envTwoFields "%PDF-1.4" [("Name", Value.vstr "Ann")] [] = .ok "1" 1 1 :=
  C4 envTwoFields "%PDF-1.4" [37, 80, 68, 70, 45, 49, 46, 52] [1]
    [("Name", Value.vstr "Ann")] [] [("Name", .vdict []), ("Subscribe", .vdict [])]
    [("Name", "Ann")]
    (by decide) (by decide) (by decide) rfl
    (by decide) (by decide) rfl rfl (by decide)

/-- Claim C5 (confirmed): a mapping with any key absent from the
engine's field names makes `fill_pdf` fail with a `data`-kind error
whose message lists the sorted unknown keys and the preview of at most
10 sorted available names; the listed set is exactly the unknown keys. -/
theorem C5 (env : Env) (s : String) (bytes : List Nat)
    (fm opts flds : List (String × Value))
    (hsize : s.length ≤ 50 * 1024 * 1024)
    (hdec : env.b64decode s = some bytes)
    (hsig : listStarts pdfMagic bytes = true)
    (hflds : env.get_form_fields bytes = .ok flds)
    (hne : flds ≠ [])
    (hbad : ∃ k, k ∈ fm.map Prod.fst ∧ k ∉ flds.map Prod.fst) :
    fill_pdf env s fm opts =
      .err ⟨"Fields not found in PDF: " ++
        String.intercalate ", " (pySortedSet ((fm.map Prod.fst).filter
          (fun n => !(flds.map Prod.fst).contains n))) ++
        ". Available fields: " ++ availablePreview (flds.map Prod.fst), ErrType.data⟩
    ∧ (∀ k, k ∈ pySortedSet ((fm.map Prod.fst).filter
          (fun n => !(flds.map Prod.fst).contains n))
        ↔ (k ∈ fm.map Prod.fst ∧ k ∉ flds.map Prod.fst))
    ∧ ((pySortedSet (flds.map Prod.fst)).take 10).length ≤ 10 := by
  have hfm : fm.isEmpty = false := by
    obtain ⟨k, hk, _⟩ := hbad
    cases fm with
    | nil => simp at hk
    | cons p r => rfl
  have hvfm := validate_fm_bad env bytes fm flds hflds hne hbad
  refine ⟨?_, ?_, ?_⟩
  · unfold fill_pdf
    rw [if_neg (Nat.not_lt.mpr hsize)]
    simp only [hfm, Bool.false_eq_true, if_false, hdec, hsig, Bool.not_true, hvfm]
  · intro k
    rw [mem_pySortedSet, List.mem_filter]
    simp [List.contains, List.elem_iff]
  · rw [List.length_take]
    exact Nat.min_le_left _ _

/-- Claim C5 (witness): the unknown-key theorem applied to a concrete
two-field document and a mapping with one unknown key. -/
theorem C5_witness :
    fill_pdf envTwoFields "%PDF-1.4" [("Unknown", Value.vstr "x")] [] =
      .err ⟨"Fields not found in PDF: " ++
        String.intercalate ", " (pySortedSet (([("Unknown", Value.vstr "x")].map
            Prod.fst).filter
          (fun n => !(([("Name", Value.vdict []), ("Subscribe", Value.vdict [])].map
            Prod.fst).contains n)))) ++
        ". Available fields: " ++
        availablePreview ([("Name", Value.vdict []), ("Subscribe", Value.vdict [])].map
          Prod.fst), ErrType.data⟩ :=
  (C5 envTwoFields "%PDF-1.4" [37, 80, 68, 70, 45, 49, 46, 52]
    [("Unknown", Value.vstr "x")] [] [("Name", .vdict []), ("Subscribe", .vdict [])]
    (by decide) (by decide) (by decide) rfl (List.cons_ne_nil _ _)
    ⟨"Unknown", by decide, by decide⟩).1
